import Mathlib

/-!
Verification development for the health-atm repository.

Probabilities and scores are embedded as rationals (`ℚ`); every template
and frontend consumer compares them against the literal thresholds 0.7 and
0.4, so the banding logic is uniform under this embedding.  Jinja template
logic and TypeScript functions are embedded as total Lean functions over
explicit `Option` fields (Jinja `is defined` / JS optional chaining become
`Option` matches).  Backend components that are absent from the repository
snapshot (the inference pipeline, findings assembler, process endpoint) are
modelled from the specification and marked as such in their doc comments.
-/

namespace HealthATM

/-- Risk band enumeration mirroring the frontend RiskLevel type used by
RiskBadge.tsx. -/
inductive RiskLevel
  | high
  | medium
  | low
deriving DecidableEq

/-- Function getRiskLevel from frontend/components/RiskBadge.tsx:
prob >= 0.7 gives high, prob >= 0.4 gives medium, otherwise low. -/
def getRiskLevel (prob : ℚ) : RiskLevel :=
  if prob ≥ 7/10 then .high
  else if prob ≥ 4/10 then .medium
  else .low

/-- Risk band enumeration used by the clinician report template's
malignancy cell (risk-high / risk-moderate / risk-low badge classes). -/
inductive ClinBand
  | high
  | moderate
  | low
deriving DecidableEq

/-- Malignancy cell banding from
backend/app/templates/clinician_report.md (nodule table): prob >= 0.7
gives the risk-high badge, elif prob >= 0.4 the risk-moderate badge, else
the risk-low badge. -/
def clinicianMalignancyBand (prob : ℚ) : ClinBand :=
  if prob ≥ 7/10 then .high
  else if prob ≥ 4/10 then .moderate
  else .low

/-- The risk_label assignment from
backend/app/templates/patient_report_en.md: "High" if prob >= 0.7 else
("Moderate" if prob >= 0.4 else "Low"). -/
def patientRiskLabel (prob : ℚ) : String :=
  if prob ≥ 7/10 then "High"
  else if prob ≥ 4/10 then "Moderate"
  else "Low"

/-- C1: risk banding is a pure function of the malignancy probability with
fixed thresholds.  For every probability p in [0,1], each of the three
places that derives a risk class (RiskBadge.getRiskLevel, the clinician
report malignancy cell, the English patient report risk_label) yields the
high band exactly when p >= 0.7, the middle band exactly when
0.4 <= p < 0.7, and the low band exactly when p < 0.4. -/
theorem risk_banding_fixed_thresholds (p : ℚ) (h0 : 0 ≤ p) (h1 : p ≤ 1) :
    (getRiskLevel p = .high ↔ 7/10 ≤ p) ∧
    (getRiskLevel p = .medium ↔ 4/10 ≤ p ∧ p < 7/10) ∧
    (getRiskLevel p = .low ↔ p < 4/10) ∧
    (clinicianMalignancyBand p = .high ↔ 7/10 ≤ p) ∧
    (clinicianMalignancyBand p = .moderate ↔ 4/10 ≤ p ∧ p < 7/10) ∧
    (clinicianMalignancyBand p = .low ↔ p < 4/10) ∧
    (patientRiskLabel p = "High" ↔ 7/10 ≤ p) ∧
    (patientRiskLabel p = "Moderate" ↔ 4/10 ≤ p ∧ p < 7/10) ∧
    (patientRiskLabel p = "Low" ↔ p < 4/10) := by
  unfold getRiskLevel clinicianMalignancyBand patientRiskLabel
  split_ifs with ha hb <;>
    refine ⟨?_, ?_, ?_, ?_, ?_, ?_, ?_, ?_, ?_⟩ <;>
    simp_all <;> linarith

/-- Witness for C1 at the concrete probability 1/2: it lies in [0,1] and
all three consumers band it as the middle band. -/
theorem risk_banding_fixed_thresholds_witness :
    getRiskLevel (1/2) = .medium ∧ clinicianMalignancyBand (1/2) = .moderate ∧
      patientRiskLabel (1/2) = "Moderate" :=
  have h := risk_banding_fixed_thresholds (1/2) (by norm_num) (by norm_num)
  ⟨h.2.1.mpr (by norm_num), h.2.2.2.2.1.mpr (by norm_num),
    h.2.2.2.2.2.2.2.1.mpr (by norm_num)⟩

/-- Uncertainty object carried by each nodule; the reports read its
needs_review flag. -/
structure Uncertainty where
  needs_review : Bool
deriving DecidableEq

/-- A scored nodule as it appears inside a FindingsRecord (output
contract of spec section 6): classification fields are present because a
nodule lacking a classification result is never emitted; the XAI asset
paths are optional. -/
structure Nodule where
  id : Nat
  long_axis_mm : ℚ
  volume_mm3 : ℚ
  location : String
  noduleType : String
  prob_malignant : ℚ
  uncertainty : Uncertainty
  gradcam_path : Option String
  overlay_path : Option String
deriving DecidableEq

/-- The terminal findings artifact handed to reporting consumers (spec
section 3): nodule list, derived counts, optional lung-level condition
scores, narrative strings, processing duration and warnings. -/
structure FindingsRecord where
  study_id : String
  nodules : List Nodule
  num_nodules : Nat
  high_risk_count : Nat
  emphysema_score : Option ℚ
  fibrosis_score : Option ℚ
  consolidation_score : Option ℚ
  impression : String
  summary_text : String
  processing_time_seconds : ℚ
  validation_warnings : List String
deriving DecidableEq

/-- A classified candidate before the assembler assigns its record-local
id: all Nodule fields except the id. -/
structure ScoredNodule where
  long_axis_mm : ℚ
  volume_mm3 : ℚ
  location : String
  noduleType : String
  prob_malignant : ℚ
  uncertainty : Uncertainty
  gradcam_path : Option String
  overlay_path : Option String
deriving DecidableEq

/-- Modelled from the spec: id assignment by the Findings Assembler,
which is not under src/.  Nodules are assigned a stable sequential id
within a findings record (spec section 3), so the k-th scored nodule
receives id k counting from the given start. -/
def assignIds : Nat → List ScoredNodule → List Nodule
  | _, [] => []
  | k, s :: rest =>
      { id := k, long_axis_mm := s.long_axis_mm, volume_mm3 := s.volume_mm3,
        location := s.location, noduleType := s.noduleType,
        prob_malignant := s.prob_malignant, uncertainty := s.uncertainty,
        gradcam_path := s.gradcam_path, overlay_path := s.overlay_path }
        :: assignIds (k + 1) rest

/-- Modelled from the spec: the Findings Assembler (spec section 4.6) is
not under src/.  It assigns sequential ids starting from 1, orders the
nodules by id, and computes num_nodules and high_risk_count as derived
fields (high risk meaning prob_malignant >= 0.7, spec section 8); it then
freezes the record. -/
def assembleFindings (study_id : String) (scored : List ScoredNodule)
    (emphysema fibrosis consolidation : Option ℚ)
    (impression summary_text : String) (t : ℚ)
    (warnings : List String) : FindingsRecord :=
  let ns := assignIds 1 scored
  { study_id := study_id, nodules := ns, num_nodules := ns.length,
    high_risk_count := (ns.filter (fun n => n.prob_malignant ≥ 7/10)).length,
    emphysema_score := emphysema, fibrosis_score := fibrosis,
    consolidation_score := consolidation, impression := impression,
    summary_text := summary_text, processing_time_seconds := t,
    validation_warnings := warnings }

/-- Recomputation of the high-risk count by the results page,
frontend/app/results/[studyId]/page.tsx line 204:
findings.nodules.filter(n => n.prob_malignant >= 0.7).length. -/
def resultsHighRiskCount (f : FindingsRecord) : Nat :=
  (f.nodules.filter (fun n => n.prob_malignant ≥ 7/10)).length

/-- Recomputation of the nodule count by the results page nodule table
consumer: the length of the nodules list. -/
def resultsNoduleListCount (f : FindingsRecord) : Nat :=
  f.nodules.length

/-- A scan row as seen by the home dashboard: its findings_json is absent
until the scan completes. -/
structure ScanResult where
  findings_json : Option FindingsRecord
deriving DecidableEq

/-- Function getHighRiskCount from frontend/app/page.tsx lines 313-315:
result?.findings_json?.nodules?.filter(n => n.prob_malignant >= 0.7)
.length || 0, with optional chaining embedded as Option matches. -/
def getHighRiskCount (result : Option ScanResult) : Nat :=
  match result with
  | none => 0
  | some r =>
      match r.findings_json with
      | none => 0
      | some f => (f.nodules.filter (fun n => n.prob_malignant ≥ 7/10)).length

/-- Function getNoduleCount from frontend/app/page.tsx lines 317-319:
result?.findings_json?.nodules?.length || 0. -/
def getNoduleCount (result : Option ScanResult) : Nat :=
  match result with
  | none => 0
  | some r =>
      match r.findings_json with
      | none => 0
      | some f => f.nodules.length

/-- The NODULE_SUMMARY section of
backend/app/templates/patient_summary_sectioned.md lines 31-32 displays
the nodules|length filter result and the high_risk_count field. -/
def sectionedNoduleSummaryHeader (f : FindingsRecord) : String :=
  "Total Lung Nodules Found: " ++ toString f.nodules.length ++
    " High-Risk Nodules: " ++ toString f.high_risk_count

/-- C2: for every FindingsRecord produced by the assembler,
high_risk_count equals the number of nodules with prob_malignant >= 0.7,
and the consumers that recompute the count from the nodules list (the
results page, the home dashboard's getHighRiskCount) obtain the same
value as the record field. -/
theorem high_risk_count_invariant (study_id : String)
    (scored : List ScoredNodule) (e fb c : Option ℚ) (imp st : String)
    (t : ℚ) (w : List String) :
    (assembleFindings study_id scored e fb c imp st t w).high_risk_count =
        ((assembleFindings study_id scored e fb c imp st t w).nodules.filter
          (fun n => n.prob_malignant ≥ 7/10)).length ∧
      resultsHighRiskCount (assembleFindings study_id scored e fb c imp st t w) =
        (assembleFindings study_id scored e fb c imp st t w).high_risk_count ∧
      getHighRiskCount (some ⟨some (assembleFindings study_id scored e fb c imp st t w)⟩) =
        (assembleFindings study_id scored e fb c imp st t w).high_risk_count ∧
      sectionedNoduleSummaryHeader (assembleFindings study_id scored e fb c imp st t w) =
        "Total Lung Nodules Found: " ++
          toString (resultsNoduleListCount (assembleFindings study_id scored e fb c imp st t w)) ++
          " High-Risk Nodules: " ++
          toString (resultsHighRiskCount (assembleFindings study_id scored e fb c imp st t w)) :=
  ⟨rfl, rfl, rfl, rfl⟩

/-- The ids assigned by assignIds starting at k are exactly the interval
[k, k + length). -/
theorem assignIds_map_id (k : Nat) (l : List ScoredNodule) :
    (assignIds k l).map Nodule.id = List.range' k l.length := by
  induction l generalizing k with
  | nil => rfl
  | cons s rest ih => simp [assignIds, List.range', ih]

/-- C3: for every FindingsRecord produced by the assembler, num_nodules
equals the length of the nodules list and the nodule ids are pairwise
distinct, so the consumer that displays the num_nodules field (results
page StatsCard) and the consumers that count the nodules list (results
page table, getNoduleCount, the clinician report heading) show the same
number. -/
theorem num_nodules_invariant (study_id : String)
    (scored : List ScoredNodule) (e fb c : Option ℚ) (imp st : String)
    (t : ℚ) (w : List String) :
    (assembleFindings study_id scored e fb c imp st t w).num_nodules =
        (assembleFindings study_id scored e fb c imp st t w).nodules.length ∧
      ((assembleFindings study_id scored e fb c imp st t w).nodules.map Nodule.id).Nodup ∧
      resultsNoduleListCount (assembleFindings study_id scored e fb c imp st t w) =
        (assembleFindings study_id scored e fb c imp st t w).num_nodules ∧
      getNoduleCount (some ⟨some (assembleFindings study_id scored e fb c imp st t w)⟩) =
        (assembleFindings study_id scored e fb c imp st t w).num_nodules := by
  refine ⟨rfl, ?_, rfl, rfl⟩
  show ((assignIds 1 scored).map Nodule.id).Nodup
  rw [assignIds_map_id]
  exact List.nodup_range' 1 scored.length

/-- A nodule as the Jinja templates see it in the rendering context: every
field may be absent (Jinja "is defined" / "is mapping" checks become
Option matches), matching the duck-typed access in the templates. -/
structure TNodule where
  id : Nat
  long_axis_mm : Option ℚ
  volume_mm3 : Option ℚ
  location : Option String
  noduleType : Option String
  prob_malignant : Option ℚ
  p_malignant : Option ℚ
  uncertainty : Option Uncertainty
  gradcam_path : Option String
  overlay_path : Option String
  xai_embedded : Option String
  xai_html : Option String
deriving DecidableEq

/-- View of a pipeline Nodule in the template rendering context: the
serialized record carries prob_malignant and uncertainty, and has no
legacy p_malignant or embedded XAI html fields. -/
def Nodule.toTemplate (n : Nodule) : TNodule :=
  { id := n.id, long_axis_mm := some n.long_axis_mm,
    volume_mm3 := some n.volume_mm3, location := some n.location,
    noduleType := some n.noduleType,
    prob_malignant := some n.prob_malignant, p_malignant := none,
    uncertainty := some n.uncertainty, gradcam_path := n.gradcam_path,
    overlay_path := n.overlay_path, xai_embedded := none, xai_html := none }

/-- The prob variable of the clinician report nodule row,
backend/app/templates/clinician_report.md line 355: n.prob_malignant if
defined, else n.p_malignant if defined, else 0. -/
def clinicianTemplateProb (n : TNodule) : ℚ :=
  match n.prob_malignant with
  | some p => p
  | none =>
      match n.p_malignant with
      | some p => p
      | none => 0

/-- The prob variable of the English patient report nodule row,
backend/app/templates/patient_report_en.md line 278: the same fallback
chain as the clinician report. -/
def patientTemplateProb (n : TNodule) : ℚ :=
  match n.prob_malignant with
  | some p => p
  | none =>
      match n.p_malignant with
      | some p => p
      | none => 0

/-- The needs_review variable of the clinician report nodule row,
backend/app/templates/clinician_report.md line 373: n.uncertainty
.needs_review if n.uncertainty is mapping, else false. -/
def clinicianNeedsReview (n : TNodule) : Bool :=
  match n.uncertainty with
  | some u => u.needs_review
  | none => false

/-- The Review cell of the clinician report nodule row: the review-flag
"Yes" badge when needs_review, else the review-ok "No" badge. -/
def clinicianReviewCell (n : TNodule) : String :=
  if clinicianNeedsReview n then "Yes" else "No"

/-- C10: report rendering is total on nodules with missing classification
fields.  When neither prob_malignant nor p_malignant is defined, both the
clinician and the English patient template substitute probability 0 and
band the nodule low risk ("Low" label); when the uncertainty field is not
a mapping, the clinician report treats needs_review as false and renders
the "No" review cell; such a nodule renders as benign/not-flagged rather
than erroring. -/
theorem missing_classification_defaults (n : TNodule) :
    (n.prob_malignant = none → n.p_malignant = none →
      clinicianTemplateProb n = 0 ∧ patientTemplateProb n = 0 ∧
        clinicianMalignancyBand (clinicianTemplateProb n) = .low ∧
        patientRiskLabel (patientTemplateProb n) = "Low") ∧
    (n.uncertainty = none →
      clinicianNeedsReview n = false ∧ clinicianReviewCell n = "No") := by
  constructor
  · intro h1 h2
    have hp : clinicianTemplateProb n = 0 := by
      simp [clinicianTemplateProb, h1, h2]
    have hq : patientTemplateProb n = 0 := by
      simp [patientTemplateProb, h1, h2]
    refine ⟨hp, hq, ?_, ?_⟩
    · rw [hp]; simp [clinicianMalignancyBand]; norm_num
    · rw [hq]; simp [patientRiskLabel]; norm_num
  · intro h3
    have hr : clinicianNeedsReview n = false := by
      simp [clinicianNeedsReview, h3]
    exact ⟨hr, by simp [clinicianReviewCell, hr]⟩

/-- Witness for C10 at a concrete nodule with no classification fields:
it renders with probability 0, the Low band and the "No" review cell. -/
theorem missing_classification_defaults_witness :
    clinicianTemplateProb
        ⟨1, none, none, none, none, none, none, none, none, none, none, none⟩ = 0 ∧
      patientRiskLabel (patientTemplateProb
        ⟨1, none, none, none, none, none, none, none, none, none, none, none⟩) = "Low" ∧
      clinicianReviewCell
        ⟨1, none, none, none, none, none, none, none, none, none, none, none⟩ = "No" :=
  have h := missing_classification_defaults
    ⟨1, none, none, none, none, none, none, none, none, none, none, none⟩
  ⟨(h.1 rfl rfl).1, (h.1 rfl rfl).2.2.2, (h.2 rfl).2⟩

/-- The three message branches of the What We Found card of the English
patient report. -/
inductive PatientMainMessage
  | goodNoFindings
  | goodLowRisk
  | concern
deriving DecidableEq

/-- The main-result branch selection of
backend/app/templates/patient_report_en.md lines 244-262: nodule_count is
nodules|length when the nodules value is truthy, else 0; high_risk is
high_risk_count or 0; nodule_count == 0 picks the reassuring
message-good branch, else high_risk == 0 the low-risk message-good
branch, else the message-concern branch. -/
def patientMainMessage (nodules : Option (List TNodule))
    (high_risk_count : Option Nat) : PatientMainMessage :=
  let nodule_count :=
    match nodules with
    | none => 0
    | some l => l.length
  let high_risk := high_risk_count.getD 0
  if nodule_count = 0 then .goodNoFindings
  else if high_risk = 0 then .goodLowRisk
  else .concern

/-- The nodule-section branch of
backend/app/templates/clinician_report.md lines 340-407: the table is
rendered only when nodules is truthy and nodules|length > 0; otherwise
the explicit "No nodules detected in this scan." paragraph is emitted. -/
def clinicianShowsNoNoduleMessage (nodules : Option (List TNodule)) : Bool :=
  match nodules with
  | none => true
  | some l => l.isEmpty

/-- C4: a run that finds no nodules is a valid success, not an error.
The assembler applied to an empty scored list yields a record with
num_nodules = 0 and an empty nodules list, and for every record with an
empty nodules list both report templates render their explicit
no-nodules branch (the rendering functions are total, so no error state
arises). -/
theorem no_nodules_is_success (study_id : String) (e fb c : Option ℚ)
    (imp st : String) (t : ℚ) (w : List String) (f : FindingsRecord)
    (hn : f.nodules = []) (hc : f.num_nodules = 0) :
    (assembleFindings study_id [] e fb c imp st t w).num_nodules = 0 ∧
      (assembleFindings study_id [] e fb c imp st t w).nodules = [] ∧
      patientMainMessage (some (f.nodules.map Nodule.toTemplate))
        (some f.high_risk_count) = .goodNoFindings ∧
      clinicianShowsNoNoduleMessage (some (f.nodules.map Nodule.toTemplate)) = true ∧
      f.num_nodules = 0 := by
  refine ⟨rfl, rfl, ?_, ?_, hc⟩
  · simp [patientMainMessage, hn]
  · simp [clinicianShowsNoNoduleMessage, hn]

/-- Witness for C4 at a concrete empty record produced by the
assembler. -/
theorem no_nodules_is_success_witness :
    patientMainMessage
        (some ((assembleFindings "S1" [] none none none "imp" "sum" 1 []).nodules.map
          Nodule.toTemplate))
        (some (assembleFindings "S1" [] none none none "imp" "sum" 1 []).high_risk_count) =
      .goodNoFindings :=
  (no_nodules_is_success "S1" none none none "imp" "sum" 1 []
    (assembleFindings "S1" [] none none none "imp" "sum" 1 []) rfl rfl).2.2.1

/-- The possible renderings of the XAI cell in the clinician report
nodule table. -/
inductive XaiCell
  | embedded (html : String)
  | htmlFragment (html : String)
  | camLink (path : String)
  | overlayLink (path : String)
  | placeholder
deriving DecidableEq

/-- Jinja truthiness of an optional string value: absent and empty
strings are falsy. -/
def jinjaTruthy : Option String → Bool
  | none => false
  | some s => !s.isEmpty

/-- The XAI cell of the clinician report nodule row,
backend/app/templates/clinician_report.md lines 380-392: embedded html
first, then an xai_html fragment, then a CAM link when gradcam_path is
truthy and not the sentinel 'not_available', then an overlay link under
the same condition, else the placeholder dash. -/
def xaiCell (n : TNodule) : XaiCell :=
  if jinjaTruthy n.xai_embedded then .embedded (n.xai_embedded.getD "")
  else if jinjaTruthy n.xai_html then .htmlFragment (n.xai_html.getD "")
  else if jinjaTruthy n.gradcam_path && (n.gradcam_path != some "not_available") then
    .camLink (n.gradcam_path.getD "")
  else if jinjaTruthy n.overlay_path && (n.overlay_path != some "not_available") then
    .overlayLink (n.overlay_path.getD "")
  else .placeholder

/-- The statistics object of the clinician report explainability
summary. -/
structure XaiStatistics where
  with_xai : Nat
  total_nodules : Nat
  high_risk_without_xai : Nat
deriving DecidableEq

/-- The warning sentence of the explainability summary,
backend/app/templates/clinician_report.md lines 424-426: rendered only
when high_risk_without_xai > 0, as emphasized text inside the report, not
as a failure. -/
def xaiSummaryWarning (stats : XaiStatistics) : Option String :=
  if stats.high_risk_without_xai > 0 then
    some (toString stats.high_risk_without_xai ++ " high-risk nodule(s) lack XAI.")
  else none

/-- Modelled from the spec: the XAI Generator (spec section 4.5) is not
under src/.  It is best-effort: when rendering succeeds the asset paths
are recorded on the nodule; any failure degrades to omitting the XAI
reference on that nodule and emitting a warning, never failing the
run. -/
def applyXaiStep (render : Nodule → Option (String × String)) (n : Nodule) :
    Nodule × List String :=
  match render n with
  | some (g, o) => ({ n with gradcam_path := some g, overlay_path := some o }, [])
  | none => ({ n with gradcam_path := none, overlay_path := none },
      ["XAI generation failed for nodule " ++ toString n.id])

/-- C5: XAI is best-effort and its absence never invalidates a record.
For every template nodule (including any high-risk one) whose XAI fields
are absent or the 'not_available' sentinel, the clinician report renders
the placeholder XAI cell; an XAI rendering failure on a pipeline nodule
leaves the nodule's classification intact with absent paths and a
recorded warning rather than a fatal failure; and a positive
high_risk_without_xai statistic surfaces as the data-quality warning
sentence of the explainability summary, again a rendered string rather
than an error. -/
theorem xai_best_effort (n : TNodule) (render : Nodule → Option (String × String))
    (m : Nodule)
    (hemb : n.xai_embedded = none) (hhtml : n.xai_html = none)
    (hg : n.gradcam_path = none ∨ n.gradcam_path = some "not_available")
    (ho : n.overlay_path = none ∨ n.overlay_path = some "not_available")
    (hfail : render m = none) :
    xaiCell n = .placeholder ∧
      (applyXaiStep render m).1.id = m.id ∧
      (applyXaiStep render m).1.prob_malignant = m.prob_malignant ∧
      (applyXaiStep render m).1.uncertainty = m.uncertainty ∧
      (applyXaiStep render m).1.gradcam_path = none ∧
      (applyXaiStep render m).1.overlay_path = none ∧
      (applyXaiStep render m).2 ≠ [] ∧
      (∀ stats : XaiStatistics, 0 < stats.high_risk_without_xai →
        (xaiSummaryWarning stats).isSome = true) := by
  refine ⟨?_, ?_, ?_, ?_, ?_, ?_, ?_, ?_⟩
  · rcases hg with hg | hg <;> rcases ho with ho | ho <;>
      simp [xaiCell, jinjaTruthy, hemb, hhtml, hg, ho]
  · simp [applyXaiStep, hfail]
  · simp [applyXaiStep, hfail]
  · simp [applyXaiStep, hfail]
  · simp [applyXaiStep, hfail]
  · simp [applyXaiStep, hfail]
  · simp [applyXaiStep, hfail]
  · intro stats hpos
    simp [xaiSummaryWarning, hpos]

/-- Witness for C5 at a concrete high-risk nodule with both XAI paths
set to the 'not_available' sentinel and a rendering function that always
fails. -/
theorem xai_best_effort_witness :
    xaiCell
        ⟨3, none, none, none, none, some (8/10), none, some ⟨false⟩,
          some "not_available", some "not_available", none, none⟩ = .placeholder ∧
      (applyXaiStep (fun _ => none)
        ⟨3, 12, 900, "RUL", "solid", 8/10, ⟨false⟩, none, none⟩).2 ≠ [] :=
  have h := xai_best_effort
    ⟨3, none, none, none, none, some (8/10), none, some ⟨false⟩,
      some "not_available", some "not_available", none, none⟩
    (fun _ => none)
    ⟨3, 12, 900, "RUL", "solid", 8/10, ⟨false⟩, none, none⟩
    rfl rfl (Or.inr rfl) (Or.inr rfl) rfl
  ⟨h.1, h.2.2.2.2.2.2.1⟩

/-- CaseStatus from frontend/components/CaseStatusBadge.tsx: the exposed
scan statuses are uploaded, processing, completed, failed and
assigned. -/
inductive CaseStatus
  | uploaded
  | processing
  | completed
  | failed
  | assigned
deriving DecidableEq

/-- The string literal of each CaseStatus value as it appears in the
TypeScript union type and in the status payloads compared by the
frontend. -/
def caseStatusString : CaseStatus → String
  | .uploaded => "uploaded"
  | .processing => "processing"
  | .completed => "completed"
  | .failed => "failed"
  | .assigned => "assigned"

/-- The action the results page takes after reading the polled status. -/
inductive FetchAction
  | pollAgain
  | showFailedError
  | fetchFindings
deriving DecidableEq

/-- The fetchData status dispatch of
frontend/app/results/[studyId]/page.tsx lines 65-82: processing or
uploaded schedules another poll, failed sets the error message and
returns without requesting findings, and only otherwise is
api.getFindings called. -/
def fetchDataAction (status : String) : FetchAction :=
  if status = "processing" ∨ status = "uploaded" then .pollAgain
  else if status = "failed" then .showFailedError
  else .fetchFindings

/-- The fatal error taxonomy of spec section 7. -/
inductive FatalPipelineError
  | invalidVolume
  | modelLoadFailure
  | outOfMemory
  | modelInvocationError
deriving DecidableEq

/-- Modelled from the spec: the run outcome and status mechanism (spec
sections 5 and 7) are not under src/.  A run either fully succeeds with a
complete record or fails with no record; the status exposed for polling
is completed for a success and failed for a fatal error. -/
def runStatus : Except FatalPipelineError FindingsRecord → String
  | .ok _ => "completed"
  | .error _ => "failed"

/-- Modelled from the spec: the findings retrievable for a run.  No
partial FindingsRecord is ever emitted for a fatal error, so a failed run
exposes no record. -/
def runFindings : Except FatalPipelineError FindingsRecord → Option FindingsRecord
  | .ok f => some f
  | .error _ => none

/-- C6: a fatal run never yields findings.  For every run outcome whose
exposed status is failed, no FindingsRecord exists for it, the results
page shows the failure error rather than fetching findings, and findings
are requested only when the polled status is neither processing, uploaded
nor failed. -/
theorem failed_run_yields_no_findings
    (r : Except FatalPipelineError FindingsRecord)
    (h : runStatus r = "failed") :
    runFindings r = none ∧
      fetchDataAction (runStatus r) = .showFailedError ∧
      ∀ s : String, fetchDataAction s = .fetchFindings →
        s ≠ "processing" ∧ s ≠ "uploaded" ∧ s ≠ "failed" := by
  refine ⟨?_, ?_, ?_⟩
  · cases r with
    | ok f => simp [runStatus] at h
    | error e => rfl
  · rw [h]; rfl
  · intro s hs
    by_contra hcon
    push_neg at hcon
    rcases eq_or_ne s "processing" with h1 | h1
    · simp [fetchDataAction, h1] at hs
    rcases eq_or_ne s "uploaded" with h2 | h2
    · simp [fetchDataAction, h2] at hs
    rcases eq_or_ne s "failed" with h3 | h3
    · simp [fetchDataAction, h1, h2, h3] at hs
    exact absurd (hcon h1 h2) (by exact fun hh => h3 hh)

/-- Witness for C6 at a concrete failed run outcome. -/
theorem failed_run_yields_no_findings_witness :
    runFindings (Except.error FatalPipelineError.modelInvocationError) = none ∧
      fetchDataAction
        (runStatus (Except.error FatalPipelineError.modelInvocationError)) =
        .showFailedError :=
  have h := failed_run_yields_no_findings
    (Except.error FatalPipelineError.modelInvocationError) rfl
  ⟨h.1, h.2.1⟩

/-- The four run states named by the specification's state machine,
written as the spec words them, for comparison with the code's
CaseStatus. -/
def specFourStates : List String := ["queued", "processing", "completed", "failed"]

/-- Counterexample to C7 as stated: the code's status vocabulary is not
the claimed four-state set.  The CaseStatus value assigned is a valid
exposed state whose string is outside the claimed set, and the code's
initial state is uploaded, also outside the claimed set (the code has no
queued state at all). -/
theorem caseStatus_not_spec_four_state :
    caseStatusString CaseStatus.assigned ∉ specFourStates ∧
      caseStatusString CaseStatus.uploaded ∉ specFourStates := by
  constructor <;> · intro h; simp [caseStatusString, specFourStates] at h

/-- Run-lifecycle transitions of the exposed status: uploaded to
processing is triggered by handleProcess in
frontend/app/dashboard/operator/page.tsx lines 90-107; processing to
completed and processing to failed are modelled from the spec (the
pipeline worker that finishes or fails a run is not under src/). -/
inductive statusStep : CaseStatus → CaseStatus → Prop
  | process : statusStep .uploaded .processing
  | complete : statusStep .processing .completed
  | fail : statusStep .processing .failed

/-- Position of each status in the forward run lifecycle: uploaded
before processing before the two terminal outcomes.  The assigned status
sits outside the run lifecycle (it marks doctor assignment) and is never
the source or target of a run transition. -/
def statusRank : CaseStatus → Nat
  | .uploaded => 0
  | .processing => 1
  | .completed => 2
  | .failed => 2
  | .assigned => 3

/-- C7 amended: the exposed status vocabulary is the five-value set
uploaded, processing, completed, failed, assigned (uploaded playing the
claimed queued role, assigned an additional non-lifecycle state), and run
states only advance forward: every transition goes from uploaded to
processing or from processing to exactly one of completed or failed, the
terminal states admit no further transition, and no transition moves
backward. -/
theorem status_state_machine_forward (s t : CaseStatus) (h : statusStep s t) :
    statusRank s < statusRank t ∧
      (∀ u : CaseStatus, statusStep .processing u → u = .completed ∨ u = .failed) ∧
      (∀ u : CaseStatus, ¬ statusStep .completed u) ∧
      (∀ u : CaseStatus, ¬ statusStep .failed u) ∧
      (∀ u : CaseStatus, ¬ statusStep .assigned u) ∧
      (∀ u : CaseStatus, ¬ statusStep u .uploaded) ∧
      ¬ statusStep t s ∧
      caseStatusString s ∈
        ["uploaded", "processing", "completed", "failed", "assigned"] := by
  have hforward : ∀ a b : CaseStatus, statusStep a b → statusRank a < statusRank b := by
    intro a b hab
    cases hab <;> simp [statusRank]
  refine ⟨hforward s t h, ?_, ?_, ?_, ?_, ?_, ?_, ?_⟩
  · intro u hu
    cases hu
    · exact Or.inl rfl
    · exact Or.inr rfl
  · intro u hu; cases hu
  · intro u hu; cases hu
  · intro u hu; cases hu
  · intro u hu; cases hu
  · intro hts
    have h1 := hforward s t h
    have h2 := hforward t s hts
    omega
  · cases h <;> simp [caseStatusString]

/-- Witness for the amended C7 at the concrete transition from uploaded
to processing. -/
theorem status_state_machine_forward_witness :
    statusRank .uploaded < statusRank .processing :=
  (status_state_machine_forward .uploaded .processing statusStep.process).1

/-- The Process button of the operator dashboard,
frontend/app/dashboard/operator/page.tsx lines 381-390, is rendered only
for a case whose status is uploaded. -/
def processButtonShown (status : CaseStatus) : Bool :=
  status == .uploaded

/-- The rendered Process button is additionally disabled while a process
request for that case id is already in flight (processingIds guard,
lines 90-107 and 384-385). -/
def processButtonEnabled (status : CaseStatus) (isProcessing : Bool) : Bool :=
  processButtonShown status && !isProcessing

/-- The per-scan run bookkeeping used to state the at-most-one-run
guarantee: the exposed status together with the number of independent
inference computations launched for the scan. -/
structure RunRegistry where
  status : CaseStatus
  runsStarted : Nat
deriving DecidableEq

/-- Responses of the process endpoint. -/
inductive ProcessResponse
  | started
  | observesExisting
  | invalidState
deriving DecidableEq

/-- Modelled from the spec: the backend process endpoint (spec section 5)
is not under src/.  A process request for an uploaded scan launches the
single run and moves the status to processing; a request for a scan
already processing is a no-op poll that observes the existing run's
state; any other status launches nothing. -/
def processRequest (s : RunRegistry) : RunRegistry × ProcessResponse :=
  match s.status with
  | .uploaded => ({ status := .processing, runsStarted := s.runsStarted + 1 }, .started)
  | .processing => (s, .observesExisting)
  | _ => (s, .invalidState)

/-- Invariant of repeated process requests on a freshly uploaded scan:
while the status is still uploaded no run has started, and overall at
most one run is ever started. -/
theorem processRequest_iterate_bound (k : Nat) :
    (((fun t => (processRequest t).1)^[k]
          { status := .uploaded, runsStarted := 0 }).status = CaseStatus.uploaded →
        ((fun t => (processRequest t).1)^[k]
          { status := .uploaded, runsStarted := 0 }).runsStarted = 0) ∧
      ((fun t => (processRequest t).1)^[k]
        { status := .uploaded, runsStarted := 0 }).runsStarted ≤ 1 := by
  induction k with
  | zero => simp
  | succ m ih =>
      rw [Function.iterate_succ_apply']
      set u := (fun t => (processRequest t).1)^[m]
        ({ status := .uploaded, runsStarted := 0 } : RunRegistry) with hu
      obtain ⟨ih1, ih2⟩ := ih
      cases hst : u.status with
      | uploaded =>
          have h0 : u.runsStarted = 0 := ih1 hst
          simp [processRequest, hst, h0]
      | processing => exact ⟨fun hcon => by simp [processRequest, hst] at hcon, by
          simp [processRequest, hst]; exact ih2⟩
      | completed => exact ⟨fun hcon => by simp [processRequest, hst] at hcon, by
          simp [processRequest, hst]; exact ih2⟩
      | failed => exact ⟨fun hcon => by simp [processRequest, hst] at hcon, by
          simp [processRequest, hst]; exact ih2⟩
      | assigned => exact ⟨fun hcon => by simp [processRequest, hst] at hcon, by
          simp [processRequest, hst]; exact ih2⟩

/-- C8: at most one inference run is in flight per scan identifier.  A
process request issued while the scan is already processing leaves the
registry unchanged, launches no new computation and observes the existing
run's state; the operator dashboard does not even render the Process
button for such a scan; and from a freshly uploaded scan, any number of
repeated process requests starts at most one run. -/
theorem at_most_one_run_per_scan (s : RunRegistry)
    (h : s.status = .processing) :
    (processRequest s).1 = s ∧
      (processRequest s).2 = .observesExisting ∧
      (processRequest s).1.runsStarted = s.runsStarted ∧
      processButtonShown s.status = false ∧
      ∀ k : Nat,
        ((fun t => (processRequest t).1)^[k]
          { status := .uploaded, runsStarted := 0 }).runsStarted ≤ 1 := by
  refine ⟨?_, ?_, ?_, ?_, fun k => (processRequest_iterate_bound k).2⟩
  · simp [processRequest, h]
  · simp [processRequest, h]
  · simp [processRequest, h]
  · simp [processButtonShown, h]

/-- Witness for C8 at a concrete registry whose scan is processing with
its single run already started. -/
theorem at_most_one_run_per_scan_witness :
    (processRequest { status := .processing, runsStarted := 1 }).1 =
        { status := CaseStatus.processing, runsStarted := 1 } ∧
      (processRequest { status := .processing, runsStarted := 1 }).2 =
        .observesExisting :=
  have h := at_most_one_run_per_scan { status := .processing, runsStarted := 1 } rfl
  ⟨h.1, h.2.1⟩

/-- A JavaScript number that may be the NaN produced by arithmetic on an
undefined operand; finite values are kept exact as rationals. -/
inductive JSNum
  | nan
  | num (q : ℚ)
deriving DecidableEq

/-- JavaScript multiplication of a possibly-undefined score by 100:
undefined * 100 evaluates to NaN, a present value scales normally. -/
def jsScale100 : Option ℚ → JSNum
  | none => .nan
  | some q => .num (q * 100)

/-- Number.prototype.toFixed(0): NaN renders the string "NaN"; a finite
nonnegative value (the only case arising for scores in [0,1]) renders its
nearest integer. -/
def toFixed0 : JSNum → String
  | .nan => "NaN"
  | .num q => toString (round q)

/-- The Emphysema StatsCard value of
frontend/app/results/[studyId]/page.tsx line 242:
(findings.emphysema_score * 100).toFixed(0) followed by a percent sign,
with no guard for an absent score. -/
def emphysemaStatsValue (score : Option ℚ) : String :=
  toFixed0 (jsScale100 score) ++ "%"

/-- Fixed-point rendering with four decimals used by the clinician
report's "%.4f" format filter, for the nonnegative scores it is applied
to. -/
def formatFixed4 (q : ℚ) : String :=
  let n : Int := round (q * 10000)
  let sign := if n < 0 then "-" else ""
  let m := n.natAbs
  let fr := toString (m % 10000)
  sign ++ toString (m / 10000) ++ "." ++
    String.mk (List.replicate (4 - fr.length) '0') ++ fr

/-- A lung-score kv-item of the clinician report,
backend/app/templates/clinician_report.md lines 312-323 (the emphysema,
fibrosis and consolidation items all use this shape): the "%.4f"
formatted value when the score is not none, else the literal "N/A". -/
def clinicianScoreKv (score : Option ℚ) : String :=
  match score with
  | some q => formatFixed4 q
  | none => "N/A"

/-- A lung-score line of the sectioned patient summary,
backend/app/templates/patient_summary_sectioned.md lines 16-26: the
labelled line is emitted only when the score is not none. -/
def sectionedScoreLine (label : String) (score : Option ℚ) : Option String :=
  match score with
  | some q => some (label ++ ": " ++ toString q)
  | none => none

/-- Counterexample to C9 as stated: at the concrete input of an absent
emphysema score, the results-page Emphysema StatsCard consumer renders
the undefined numeric value "NaN%", not "N/A" or an equivalent
placeholder, while the clinician report kv-item for the same absent
score does render "N/A". -/
theorem emphysema_stats_card_nan :
    emphysemaStatsValue none = "NaN%" ∧
      emphysemaStatsValue none ≠ "N/A" ∧
      clinicianScoreKv none = "N/A" := by
  refine ⟨rfl, ?_, rfl⟩
  intro h
  simp [emphysemaStatsValue, jsScale100, toFixed0] at h

/-- C9 amended: each lung-level condition score may be absent, and the
report-template consumers are total on an absent score, rendering "N/A"
(clinician report kv-items) or omitting the line (sectioned summary);
the results-page Emphysema StatsCard, however, formats the missing score
numerically without a guard and displays "NaN%". -/
theorem lung_scores_optional_consumers (score : Option ℚ) (label : String) :
    clinicianScoreKv none = "N/A" ∧
      sectionedScoreLine label none = none ∧
      (∀ q : ℚ, clinicianScoreKv (some q) = formatFixed4 q) ∧
      (∀ q : ℚ, sectionedScoreLine label (some q) =
        some (label ++ ": " ++ toString q)) ∧
      (score = none → emphysemaStatsValue score = "NaN%") ∧
      (∀ q : ℚ, emphysemaStatsValue (some q) = toString (round (q * 100)) ++ "%") := by
  refine ⟨rfl, rfl, fun q => rfl, fun q => rfl, ?_, fun q => rfl⟩
  intro h
  rw [h]
  rfl

/-- Witness for the amended C9 at the absent score. -/
theorem lung_scores_optional_consumers_witness :
    emphysemaStatsValue none = "NaN%" ∧ clinicianScoreKv none = "N/A" :=
  have h := lung_scores_optional_consumers none "Emphysema Score"
  ⟨h.2.2.2.2.1 rfl, h.1⟩

end HealthATM
